import Mathlib

/-!
Verification of the uzpayments-integration payment library.

This file gives a shallow embedding of the two payment-provider adapters
(`src/providers/click.provider.ts` and `src/providers/payme.provider.ts`,
webhook-capable variants) together with the runtime encoding primitives they
rely on (UTF-8, percent/query encoding, base64, JSON string objects), and
proves the behavioural claims about webhook authorization, method dispatch,
transaction states, error normalization, amount conversion, status mapping
and redirect-URL round trips.

Modelling conventions:
- JavaScript numbers are modelled as `Int` (amounts) or `ℚ` where the code
  divides; timestamps (`Date.now()`) are an explicit `now : Nat` parameter.
- A thrown JavaScript value is `Option String`: `some msg` is an `Error`
  with that message, `none` a non-`Error` throw.
- The outcome of the HTTP transport (an external collaborator) is passed to
  each outbound operation as an `Except (Option String) response` argument.
- The MD5 digest from node's `crypto` (external library) is an abstract
  parameter `h : String → String`; the claims concern which string is
  hashed, not the digest internals.
-/

/-! ### JavaScript runtime helpers -/

/-- Substring test on character lists, used to model `String.prototype.includes`. -/
def charsContains (pat : List Char) : List Char → Bool
  | [] => pat.isEmpty
  | c :: rest => pat.isPrefixOf (c :: rest) || charsContains pat rest

/-- Model of JavaScript `s.includes(pat)`. -/
def jsIncludes (s pat : String) : Bool :=
  charsContains pat.data s.data

/-- Model of JavaScript `s.startsWith(pat)`. -/
def jsStartsWith (s pat : String) : Bool :=
  pat.data.isPrefixOf s.data

/-- `error instanceof Error ? error.message : 'Unknown error'`. -/
def jsErrMessage : Option String → String
  | some m => m
  | none => "Unknown error"

/-- `error instanceof Error && (error.message.includes('timeout') ||
    error.message.includes('ECONNABORTED'))`. -/
def isTimeoutError : Option String → Bool
  | some m => jsIncludes m "timeout" || jsIncludes m "ECONNABORTED"
  | none => false

/-- Model of the JavaScript unary `+` coercion on a string: decimal literals
(with optional sign) coerce to their value, the empty string to `0`, anything
else to NaN (`none`). -/
def jsUnaryPlus (s : String) : Option Int :=
  if s = "" then some 0
  else
    let body := if jsStartsWith s "-" then s.data.drop 1 else s.data
    if body ≠ [] ∧ body.all (·.isDigit) then
      let n : Nat := body.foldl (fun acc c => 10 * acc + (c.toNat - 48)) 0
      some (if jsStartsWith s "-" then -(n : Int) else (n : Int))
    else none

/-- A JavaScript `Date` as constructed by the providers: either from a
numeric timestamp or from a string. -/
inductive JsDate where
  | ofNum (n : Nat)
  | ofStr (s : String)
deriving DecidableEq

/-! ### UTF-8 encoding (JS strings are serialized as UTF-8 bytes) -/

/-- UTF-8 encoding of a single character as a list of bytes. -/
def utf8EncodeChar (c : Char) : List Nat :=
  let n := c.toNat
  if n < 0x80 then [n]
  else if n < 0x800 then [0xC0 + n / 64, 0x80 + n % 64]
  else if n < 0x10000 then [0xE0 + n / 4096, 0x80 + n / 64 % 64, 0x80 + n % 64]
  else [0xF0 + n / 0x40000, 0x80 + n / 4096 % 64, 0x80 + n / 64 % 64, 0x80 + n % 64]

/-- UTF-8 byte serialization of a string. -/
def utf8Bytes (s : String) : List Nat :=
  (s.data.map utf8EncodeChar).flatten

/-- UTF-8 decoding of a byte list (structure-directed inverse of
`utf8EncodeChar`, used by the URL decoders). -/
def utf8Decode : List Nat → Option (List Char)
  | [] => some []
  | b0 :: rest =>
    if b0 < 0x80 then (utf8Decode rest).map (Char.ofNat b0 :: ·)
    else if b0 < 0xC0 then none
    else if b0 < 0xE0 then
      if rest.length < 1 then none
      else (utf8Decode (rest.drop 1)).map
        (Char.ofNat ((b0 - 0xC0) * 64 + (rest.headD 0 - 0x80)) :: ·)
    else if b0 < 0xF0 then
      if rest.length < 2 then none
      else (utf8Decode (rest.drop 2)).map
        (Char.ofNat ((b0 - 0xE0) * 4096 + (rest.headD 0 - 0x80) * 64 +
          ((rest.drop 1).headD 0 - 0x80)) :: ·)
    else
      if rest.length < 3 then none
      else (utf8Decode (rest.drop 3)).map
        (Char.ofNat ((b0 - 0xF0) * 0x40000 + (rest.headD 0 - 0x80) * 4096 +
          ((rest.drop 1).headD 0 - 0x80) * 64 + ((rest.drop 2).headD 0 - 0x80)) :: ·)
termination_by l => l.length
decreasing_by all_goals (simp [List.length_drop]; try omega)

/-! ### Base64 (model of node `Buffer.toString('base64')`) -/

/-- Standard base64 alphabet. -/
def b64Char (n : Nat) : Char :=
  if n < 26 then Char.ofNat (65 + n)
  else if n < 52 then Char.ofNat (97 + (n - 26))
  else if n < 62 then Char.ofNat (48 + (n - 52))
  else if n = 62 then '+'
  else '/'

/-- Base64 encoding of a byte list, standard alphabet with `=` padding,
as produced by `Buffer.from(bytes).toString('base64')`. -/
def base64Encode : List Nat → List Char
  | [] => []
  | [b0] => [b64Char (b0 / 4), b64Char (b0 % 4 * 16), '=', '=']
  | [b0, b1] => [b64Char (b0 / 4), b64Char (b0 % 4 * 16 + b1 / 16), b64Char (b1 % 16 * 4), '=']
  | b0 :: b1 :: b2 :: rest =>
    b64Char (b0 / 4) :: b64Char (b0 % 4 * 16 + b1 / 16) ::
    b64Char (b1 % 16 * 4 + b2 / 64) :: b64Char (b2 % 64) :: base64Encode rest

/-! ### Unified provider data model (`src/interfaces/payment.interface.ts`) -/

/-- `PaymentVerifyResult['status']`. -/
inductive PayStatus where
  | pending
  | completed
  | cancelled
  | failed
deriving DecidableEq

/-- The `error: ⦃code, message⦄` object of `PaymentResult`. -/
structure ErrObj where
  code : String
  message : String
deriving DecidableEq

/-- `PaymentAmount`. -/
structure PaymentAmount where
  amount : Int
  currency : Option String := none
deriving DecidableEq

/-- `PaymentOrder`. `extra_params` is a JS object, i.e. an association list
in property order. -/
structure PaymentOrder where
  id : String
  amount : PaymentAmount
  description : Option String := none
  return_url : Option String := none
  cancel_url : Option String := none
  extra_params : List (String × String) := []
deriving DecidableEq

/-- `PaymentResult`. -/
structure PaymentResult where
  success : Bool
  transaction_id : Option String := none
  payment_url : Option String := none
  error : Option ErrObj := none
deriving DecidableEq

/-- `PaymentVerifyResult` (extends `PaymentResult`). -/
structure PaymentVerifyResult where
  success : Bool
  transaction_id : Option String := none
  payment_url : Option String := none
  error : Option ErrObj := none
  status : Option PayStatus := none
  paid_amount : Option ℚ := none
  paid_time : Option JsDate := none
deriving DecidableEq

/-! ### Payme data model (`src/interfaces/payme.interface.ts`) -/

namespace PaymeTransactionState

def Created : Int := 1

def Completed : Int := 2

def Cancelled : Int := -1

def CancelledAfterComplete : Int := -2

end PaymeTransactionState

namespace PaymeErrorCodes

def InvalidAmount : Int := -31001

def MethodNotFound : Int := -32601

def AuthorizationFailure : Int := -32504

end PaymeErrorCodes

/-- `PaymeTransactionResult`. -/
structure PaymeTransactionResult where
  transaction : String
  create_time : Nat
  perform_time : Option Nat := none
  cancel_time : Option Nat := none
  state : Int
  reason : Option Int := none
  amount : Int
deriving DecidableEq

/-- `params` of `PaymeWebhookRequest`. `from`/`to` are renamed
`fromTime`/`toTime` (`from` is a Lean keyword). -/
structure PaymeParams where
  id : Option String := none
  time : Option Nat := none
  amount : Option Int := none
  account : Option (List (String × String)) := none
  reason : Option Int := none
  fromTime : Option Nat := none
  toTime : Option Nat := none
  transaction : Option String := none
deriving DecidableEq

/-- `PaymeWebhookRequest`. `headers` is an optional JS record. -/
structure PaymeWebhookRequest where
  method : String
  params : PaymeParams
  id : String
  headers : Option (List (String × String)) := none
deriving DecidableEq

/-- The optional fields of the `result` member of `PaymeWebhookResponse`.
For `cancel_time`/`reason` the inner `Option` distinguishes an explicit
JSON `null` (`none`) from a number. -/
structure PaymeResultFields where
  allow : Option Bool := none
  transaction : Option String := none
  create_time : Option Nat := none
  perform_time : Option Nat := none
  cancel_time : Option (Option Nat) := none
  state : Option Int := none
  reason : Option (Option Int) := none
  transactions : Option (List PaymeTransactionResult) := none
deriving DecidableEq

/-- The `error` member of `PaymeWebhookResponse`. -/
structure PaymeErrorFields where
  code : Int
  message : String
deriving DecidableEq

/-- `PaymeWebhookResponse`: an envelope with optional `result` and `error`. -/
structure PaymeWebhookResponse where
  result : Option PaymeResultFields := none
  error : Option PaymeErrorFields := none
deriving DecidableEq

/-- `PaymeConfig` after constructor resolution (required fields present). -/
structure PaymeConfig where
  merchant_id : String
  login : String := "Paycom"
  password : String
  test_mode : Bool := true
deriving DecidableEq

namespace PaymeProvider

/-- `this.authorization = Buffer.from(login + ':' + password).toString('base64')`. -/
def authorization (cfg : PaymeConfig) : String :=
  String.mk (base64Encode (utf8Bytes (cfg.login ++ ":" ++ cfg.password)))

/-- `this.baseUrl` (checkout base). -/
def baseUrl (cfg : PaymeConfig) : String :=
  if cfg.test_mode then "https://test.paycom.uz" else "https://checkout.paycom.uz"

/-- `request.headers?.['Authorization']`. -/
def authHeaderOf (req : PaymeWebhookRequest) : Option String :=
  match req.headers with
  | none => none
  | some hs => hs.lookup "Authorization"

/-- `verifyWebhookAuthorization` from `payme.provider.ts`: require a
`Basic `-prefixed header whose token part equals the stored credential. -/
def verifyWebhookAuthorization (cfg : PaymeConfig) (req : PaymeWebhookRequest) : Bool :=
  match authHeaderOf req with
  | none => false
  | some h =>
    if jsStartsWith h "Basic " then (h.drop 6) == authorization cfg else false

/-- `handleCheckPerformTransaction`. -/
def handleCheckPerformTransaction (_req : PaymeWebhookRequest) : PaymeWebhookResponse :=
  { result := some { allow := some true } }

/-- `handleCreateTransaction`. -/
def handleCreateTransaction (now : Nat) (req : PaymeWebhookRequest) : PaymeWebhookResponse :=
  { result := some { create_time := some now, transaction := req.params.id,
                     state := some PaymeTransactionState.Created } }

/-- `handlePerformTransaction`. -/
def handlePerformTransaction (now : Nat) (req : PaymeWebhookRequest) : PaymeWebhookResponse :=
  { result := some { transaction := req.params.id, perform_time := some now,
                     state := some PaymeTransactionState.Completed } }

/-- `handleCancelTransaction`. -/
def handleCancelTransaction (now : Nat) (req : PaymeWebhookRequest) : PaymeWebhookResponse :=
  { result := some { transaction := req.params.id, cancel_time := some (some now),
                     state := some PaymeTransactionState.Cancelled } }

/-- `handleCheckTransaction`. -/
def handleCheckTransaction (now : Nat) (req : PaymeWebhookRequest) : PaymeWebhookResponse :=
  { result := some { create_time := some now, perform_time := some now,
                     cancel_time := some none, transaction := req.params.id,
                     state := some PaymeTransactionState.Created, reason := some none } }

/-- `handleGetStatement`. -/
def handleGetStatement (_req : PaymeWebhookRequest) : PaymeWebhookResponse :=
  { result := some { transactions := some [] } }

/-- `handleWebhook`: authorization check then dispatch on `request.method`. -/
def handleWebhook (cfg : PaymeConfig) (now : Nat) (req : PaymeWebhookRequest) :
    PaymeWebhookResponse :=
  if verifyWebhookAuthorization cfg req = false then
    { error := some { code := PaymeErrorCodes.AuthorizationFailure,
                      message := "Invalid authorization" } }
  else if req.method = "CheckPerformTransaction" then handleCheckPerformTransaction req
  else if req.method = "CreateTransaction" then handleCreateTransaction now req
  else if req.method = "PerformTransaction" then handlePerformTransaction now req
  else if req.method = "CancelTransaction" then handleCancelTransaction now req
  else if req.method = "CheckTransaction" then handleCheckTransaction now req
  else if req.method = "GetStatement" then handleGetStatement req
  else
    { error := some { code := PaymeErrorCodes.MethodNotFound,
                      message := "Method not found" } }

end PaymeProvider

/-! ### JS object-literal semantics (spread with key overwrite) -/

/-- Adding a property to a JS object: overwrite in place if the key exists,
append otherwise. -/
def jsInsert (obj : List (String × String)) (k v : String) : List (String × String) :=
  if obj.any (fun p => p.1 == k) then obj.map (fun p => if p.1 == k then (k, v) else p)
  else obj ++ [(k, v)]

/-- A JS object literal `⦃...base, ...extra⦄` where the explicit keys of
`base` are pairwise distinct: spread `extra` over `base` in order. -/
def jsSpread (base extra : List (String × String)) : List (String × String) :=
  extra.foldl (fun o p => jsInsert o p.1 p.2) base

/-! ### x-www-form-urlencoded serialization (model of `URLSearchParams`) -/

/-- Bytes `URLSearchParams` leaves unescaped: alphanumerics and `*-._`. -/
def formSafeByte (b : Nat) : Bool :=
  (48 ≤ b && b ≤ 57) || (65 ≤ b && b ≤ 90) || (97 ≤ b && b ≤ 122) ||
  b == 42 || b == 45 || b == 46 || b == 95

/-- Uppercase hex digit for percent escapes. -/
def hexDigitUpper (n : Nat) : Char :=
  if n < 10 then Char.ofNat (48 + n) else Char.ofNat (55 + n)

/-- Lowercase hex digit (used by JSON `\u00xx` escapes). -/
def hexDigitLower (n : Nat) : Char :=
  if n < 10 then Char.ofNat (48 + n) else Char.ofNat (87 + n)

/-- Encoding of one byte: kept, `+` for space, or a `%XX` escape. -/
def formEncodeByte (b : Nat) : List Char :=
  if formSafeByte b then [Char.ofNat b]
  else if b == 32 then ['+']
  else ['%', hexDigitUpper (b / 16), hexDigitUpper (b % 16)]

/-- Percent-encoding of a string's UTF-8 bytes. -/
def formEncode (s : String) : List Char :=
  ((utf8Bytes s).map formEncodeByte).flatten

/-- One `key=value` component of a query string. -/
def encodeQueryPair (p : String × String) : List Char :=
  formEncode p.1 ++ '=' :: formEncode p.2

/-- Join components with a separator between consecutive elements. -/
def joinSep (sep : List Char) : List (List Char) → List Char
  | [] => []
  | [x] => x
  | x :: y :: rest => x ++ sep ++ joinSep sep (y :: rest)

/-- `URLSearchParams.toString()`: `&`-separated `key=value` components. -/
def encodeQuery (ps : List (String × String)) : List Char :=
  joinSep ['&'] (ps.map encodeQueryPair)

/-- Value of a hex digit (either case). -/
def hexVal (c : Char) : Option Nat :=
  if 48 ≤ c.toNat ∧ c.toNat ≤ 57 then some (c.toNat - 48)
  else if 65 ≤ c.toNat ∧ c.toNat ≤ 70 then some (c.toNat - 55)
  else if 97 ≤ c.toNat ∧ c.toNat ≤ 102 then some (c.toNat - 87)
  else none

/-- Percent-decoding back to bytes. -/
def formDecode : List Char → Option (List Nat)
  | [] => some []
  | c :: rest =>
    if c = '%' then
      if rest.length < 2 then none
      else
        (hexVal (rest.headD ' ')).bind fun a =>
          (hexVal ((rest.drop 1).headD ' ')).bind fun b =>
            (formDecode (rest.drop 2)).map (fun t => (16 * a + b) :: t)
    else if c = '+' then (formDecode rest).map (fun t => 32 :: t)
    else (formDecode rest).map (fun t => c.toNat :: t)
termination_by l => l.length
decreasing_by all_goals (simp [List.length_drop]; try omega)

/-- Split a character list on a separator (n separators give n+1 groups). -/
def splitOnChar (sep : Char) : List Char → List (List Char)
  | [] => [[]]
  | c :: rest =>
    let r := splitOnChar sep rest
    if c = sep then [] :: r
    else (c :: r.headD []) :: r.tail

/-- Break a character list at the first occurrence of a separator. -/
def breakAtChar (sep : Char) : List Char → List Char × Option (List Char)
  | [] => ([], none)
  | c :: rest =>
    if c = sep then ([], some rest)
    else
      let p := breakAtChar sep rest
      (c :: p.1, p.2)

/-- Decode one percent-encoded component to a string. -/
def decodeComponent (cs : List Char) : Option String :=
  (formDecode cs).bind fun bs => (utf8Decode bs).map String.mk

/-- Parse one `key=value` component. -/
def parseQueryPair (cs : List Char) : Option (String × String) :=
  let p := breakAtChar '=' cs
  (decodeComponent p.1).bind fun ks =>
    match p.2 with
    | some v => (decodeComponent v).map fun vs => (ks, vs)
    | none => some (ks, "")

/-- Parse each group of a split query string. -/
def parsePairs : List (List Char) → Option (List (String × String))
  | [] => some []
  | g :: gs => (parseQueryPair g).bind fun p => (parsePairs gs).map (p :: ·)

/-- Parse a full query string back into its parameter list. -/
def decodeQuery (cs : List Char) : Option (List (String × String)) :=
  parsePairs (splitOnChar '&' cs)

/-! ### Base64 decoding -/

/-- Value of a base64 alphabet character. -/
def b64Val (c : Char) : Option Nat :=
  if 65 ≤ c.toNat ∧ c.toNat ≤ 90 then some (c.toNat - 65)
  else if 97 ≤ c.toNat ∧ c.toNat ≤ 122 then some (c.toNat - 71)
  else if 48 ≤ c.toNat ∧ c.toNat ≤ 57 then some (c.toNat + 4)
  else if c = '+' then some 62
  else if c = '/' then some 63
  else none

/-- Base64 decoding (standard alphabet, `=` padding allowed only at the
very end). -/
def base64Decode : List Char → Option (List Nat)
  | [] => some []
  | c0 :: c1 :: c2 :: c3 :: rest =>
    (b64Val c0).bind fun v0 =>
      (b64Val c1).bind fun v1 =>
        if c2 = '=' then
          if c3 = '=' ∧ rest = [] then some [v0 * 4 + v1 / 16] else none
        else
          (b64Val c2).bind fun v2 =>
            if c3 = '=' then
              if rest = [] then some [v0 * 4 + v1 / 16, v1 % 16 * 16 + v2 / 4] else none
            else
              (b64Val c3).bind fun v3 =>
                (base64Decode rest).map fun t =>
                  (v0 * 4 + v1 / 16) :: (v1 % 16 * 16 + v2 / 4) :: (v2 % 4 * 64 + v3) :: t
  | _ => none

/-! ### JSON serialization of flat string objects (`JSON.stringify`) -/

/-- The opening-brace character (code 123). -/
def obrace : Char := Char.ofNat 123

/-- The closing-brace character (code 125). -/
def cbrace : Char := Char.ofNat 125

/-- `JSON.stringify` escaping of one character inside a string literal. -/
def jsonEscapeChar (c : Char) : List Char :=
  if c = '"' then ['\\', '"']
  else if c = '\\' then ['\\', '\\']
  else if c = Char.ofNat 8 then ['\\', 'b']
  else if c = Char.ofNat 9 then ['\\', 't']
  else if c = Char.ofNat 10 then ['\\', 'n']
  else if c = Char.ofNat 12 then ['\\', 'f']
  else if c = Char.ofNat 13 then ['\\', 'r']
  else if c.toNat < 32 then
    ['\\', 'u', '0', '0', hexDigitLower (c.toNat / 16), hexDigitLower (c.toNat % 16)]
  else [c]

/-- A JSON string literal. -/
def jsonStringLit (s : String) : List Char :=
  '"' :: (s.data.map jsonEscapeChar).flatten ++ ['"']

/-- One `"key":"value"` member. -/
def jsonMember (p : String × String) : List Char :=
  jsonStringLit p.1 ++ ':' :: jsonStringLit p.2

/-- `JSON.stringify` of an object all of whose values are strings. -/
def jsonFlatObj (ps : List (String × String)) : List Char :=
  obrace :: joinSep [','] (ps.map jsonMember) ++ [cbrace]

/-- Expect a specific character at the head of the input. -/
def expectChar (c : Char) (l : List Char) : Option (List Char) :=
  match l with
  | d :: rest => if d = c then some rest else none
  | [] => none

/-- Parse the body of a JSON string literal after the opening quote,
returning the decoded characters and the remainder after the closing
quote. -/
def parseJsonStringBody : List Char → Option (List Char × List Char)
  | [] => none
  | c :: rest =>
    if c = '"' then some ([], rest)
    else if c = '\\' then
      if rest = [] then none
      else
        let e := rest.headD ' '
        let rest1 := rest.drop 1
        if e = '"' ∨ e = '\\' ∨ e = '/' then
          (parseJsonStringBody rest1).map (fun p => (e :: p.1, p.2))
        else if e = 'b' then
          (parseJsonStringBody rest1).map (fun p => (Char.ofNat 8 :: p.1, p.2))
        else if e = 't' then
          (parseJsonStringBody rest1).map (fun p => (Char.ofNat 9 :: p.1, p.2))
        else if e = 'n' then
          (parseJsonStringBody rest1).map (fun p => (Char.ofNat 10 :: p.1, p.2))
        else if e = 'f' then
          (parseJsonStringBody rest1).map (fun p => (Char.ofNat 12 :: p.1, p.2))
        else if e = 'r' then
          (parseJsonStringBody rest1).map (fun p => (Char.ofNat 13 :: p.1, p.2))
        else if e = 'u' then
          if rest1.length < 4 then none
          else
            (hexVal (rest1.headD ' ')).bind fun a =>
              (hexVal ((rest1.drop 1).headD ' ')).bind fun b =>
                (hexVal ((rest1.drop 2).headD ' ')).bind fun c3 =>
                  (hexVal ((rest1.drop 3).headD ' ')).bind fun d =>
                    (parseJsonStringBody (rest1.drop 4)).map
                      (fun p => (Char.ofNat (4096 * a + 256 * b + 16 * c3 + d) :: p.1, p.2))
        else none
    else (parseJsonStringBody rest).map (fun p => (c :: p.1, p.2))
termination_by l => l.length
decreasing_by all_goals (simp [List.length_drop]; try omega)

/-- Parse a JSON string literal. -/
def parseJsonString (cs : List Char) : Option (String × List Char) :=
  (expectChar '"' cs).bind fun rest =>
    (parseJsonStringBody rest).map (fun p => (String.mk p.1, p.2))

/-- Parse the members of a flat JSON object after the opening brace
(nonempty member list), consuming the closing brace. -/
def parseJsonMembers : Nat → List Char → Option (List (String × String) × List Char)
  | 0, _ => none
  | fuel + 1, cs =>
    (parseJsonString cs).bind fun kv =>
      (expectChar ':' kv.2).bind fun r1 =>
        (parseJsonString r1).bind fun vv =>
          if vv.2 = [] then none
          else
            let d := vv.2.headD ' '
            let rest2 := vv.2.drop 1
            if d = ',' then
              (parseJsonMembers fuel rest2).map (fun p => ((kv.1, vv.1) :: p.1, p.2))
            else if d = cbrace then some ([(kv.1, vv.1)], rest2)
            else none

/-- `JSON.parse` restricted to flat string-valued objects, requiring the
whole input to be consumed. -/
def parseJsonFlatObj (cs : List Char) : Option (List (String × String)) :=
  (expectChar obrace cs).bind fun rest =>
    if rest = [cbrace] then some []
    else (parseJsonMembers cs.length rest).bind fun p =>
      if p.2 = [] then some p.1 else none

/-! ### Click data model (`src/interfaces/click.interface.ts`) -/

namespace ClickErrorCodes

def Success : Int := 0

def SignatureFailure : Int := -1

def BadRequest : Int := -8

end ClickErrorCodes

/-- `PaymentConfig` after constructor resolution (Click adapter). -/
structure PaymentConfig where
  merchant_id : String
  service_id : String
  secret_key : String
  test_mode : Bool := true
deriving DecidableEq

/-- `ClickWebhookRequest`. -/
structure ClickWebhookRequest where
  click_trans_id : String
  service_id : String
  click_paydoc_id : String
  merchant_trans_id : String
  amount : Int
  action : Int
  error : Int
  error_note : String
  sign_time : String
  sign_string : String
  merchant_prepare_id : Option String := none
deriving DecidableEq

/-- `ClickWebhookResponse`. `click_trans_id` is the JS number coerced by
unary `+` (`none` = NaN). -/
structure ClickWebhookResponse where
  click_trans_id : Option Int
  merchant_trans_id : String
  merchant_prepare_id : Option Nat := none
  merchant_confirm_id : Option Nat := none
  error : Int
  error_note : String
deriving DecidableEq

/-- `ClickTransactionResponse`. -/
structure ClickTransactionResponse where
  success : Bool
  transaction_id : String
  status : Int
  amount : Int
  payment_time : Option String := none
  error : Option ErrObj := none
deriving DecidableEq

/-- `ClickCancelResponse`. -/
structure ClickCancelResponse where
  success : Bool
  transaction_id : String
  error : Option ErrObj := none
deriving DecidableEq

/-- JS truthiness of an optional string field (absent and `""` are falsy). -/
def jsTruthyStr : Option String → Bool
  | none => false
  | some s => s ≠ ""

/-- JS truthiness of an optional numeric field (absent and `0` are falsy). -/
def jsTruthyNat : Option Nat → Bool
  | none => false
  | some n => n ≠ 0

namespace ClickProvider

/-- `this.baseUrl` of the Click adapter. -/
def baseUrl (cfg : PaymentConfig) : String :=
  if cfg.test_mode then "https://test.click.uz/services/pay"
  else "https://my.click.uz/services/pay"

/-- `generateSignature(data)`: digest of `Object.values(data).join('') +
secret`. `h` abstracts the MD5-hex primitive from node `crypto`. -/
def generateSignature (h : String → String) (cfg : PaymentConfig)
    (values : List String) : String :=
  h (String.join values ++ cfg.secret_key)

/-- `mapClickStatus`. -/
def mapClickStatus (status : Int) : PayStatus :=
  if status = 1 then PayStatus.completed
  else if status = 0 then PayStatus.pending
  else if status = -1 then PayStatus.cancelled
  else PayStatus.failed

/-- The parameter object of `generatePaymentUrl` (object-literal spread of
`extra_params` over the five fixed keys). -/
def urlParams (cfg : PaymentConfig) (order : PaymentOrder) : List (String × String) :=
  jsSpread
    [("service_id", cfg.service_id), ("merchant_id", cfg.merchant_id),
     ("amount", toString order.amount.amount), ("transaction_param", order.id),
     ("return_url", order.return_url.getD "")]
    order.extra_params

/-- `generatePaymentUrl` of the Click adapter. -/
def generatePaymentUrl (cfg : PaymentConfig) (order : PaymentOrder) : String :=
  baseUrl cfg ++ "?" ++ String.mk (encodeQuery (urlParams cfg order))

/-- `createPayment` of the Click adapter: no remote call, just the URL. -/
def createPayment (cfg : PaymentConfig) (order : PaymentOrder) : PaymentResult :=
  { success := true, payment_url := some (generatePaymentUrl cfg order),
    transaction_id := some order.id }

/-- `verifyPayment` of the Click adapter, as a function of the transport
outcome. -/
def verifyPayment (outcome : Except (Option String) ClickTransactionResponse) :
    PaymentVerifyResult :=
  match outcome with
  | .ok r =>
    { success := r.success, transaction_id := some r.transaction_id,
      status := some (mapClickStatus r.status), paid_amount := some (r.amount : ℚ),
      paid_time :=
        if jsTruthyStr r.payment_time then some (JsDate.ofStr (r.payment_time.getD ""))
        else none,
      error := r.error }
  | .error e =>
    { success := false, status := some PayStatus.failed,
      error := some { code := if isTimeoutError e then "PAYMENT_TIMEOUT"
                              else "PAYMENT_VERIFY_ERROR",
                      message := jsErrMessage e } }

/-- `cancelPayment` of the Click adapter. -/
def cancelPayment (outcome : Except (Option String) ClickCancelResponse) :
    PaymentResult :=
  match outcome with
  | .ok r =>
    { success := r.success, transaction_id := some r.transaction_id, error := r.error }
  | .error e =>
    { success := false,
      error := some { code := "PAYMENT_CANCEL_ERROR", message := jsErrMessage e } }

/-- `verifyWebhookSignature`: recompute the digest over the seven fields in
protocol order and compare with `sign_string`. -/
def verifyWebhookSignature (h : String → String) (cfg : PaymentConfig)
    (req : ClickWebhookRequest) : Bool :=
  generateSignature h cfg
    [req.click_trans_id, req.service_id, req.click_paydoc_id, req.merchant_trans_id,
     toString req.amount, toString req.action, req.sign_time] == req.sign_string

/-- `handlePreparePay`. -/
def handlePreparePay (now : Nat) (req : ClickWebhookRequest) : ClickWebhookResponse :=
  { click_trans_id := jsUnaryPlus req.click_trans_id,
    merchant_trans_id := req.merchant_trans_id,
    merchant_prepare_id := some now,
    error := ClickErrorCodes.Success, error_note := "Success" }

/-- `handleCompletePay`. -/
def handleCompletePay (now : Nat) (req : ClickWebhookRequest) : ClickWebhookResponse :=
  if req.error < 0 then
    { click_trans_id := jsUnaryPlus req.click_trans_id,
      merchant_trans_id := req.merchant_trans_id,
      error := req.error, error_note := req.error_note }
  else
    { click_trans_id := jsUnaryPlus req.click_trans_id,
      merchant_trans_id := req.merchant_trans_id,
      merchant_confirm_id := some now,
      error := ClickErrorCodes.Success, error_note := "Success" }

/-- `handleWebhook` of the Click adapter: signature check then dispatch on
`action`. -/
def handleWebhook (h : String → String) (cfg : PaymentConfig) (now : Nat)
    (req : ClickWebhookRequest) : ClickWebhookResponse :=
  if verifyWebhookSignature h cfg req = false then
    { click_trans_id := jsUnaryPlus req.click_trans_id,
      merchant_trans_id := req.merchant_trans_id,
      error := ClickErrorCodes.SignatureFailure, error_note := "Invalid signature" }
  else if req.action = 0 then handlePreparePay now req
  else if req.action = 1 then handleCompletePay now req
  else
    { click_trans_id := jsUnaryPlus req.click_trans_id,
      merchant_trans_id := req.merchant_trans_id,
      error := ClickErrorCodes.BadRequest, error_note := "Invalid action" }

end ClickProvider

/-! ### Payme outbound operations and redirect URL -/

/-- The `result` member of `PaymeCancelResponse`. -/
structure PaymeCancelResult where
  transaction : String
  cancel_time : Nat
  state : Int
deriving DecidableEq

/-- The `CreateTransaction` outbound payload of `createPayment`. -/
structure PaymeCreatePayload where
  method : String
  amount : Int
  account : List (String × String)
  time : Nat
deriving DecidableEq

namespace PaymeProvider

/-- `mapPaymeStatus`. -/
def mapPaymeStatus (state : Int) : PayStatus :=
  if state = PaymeTransactionState.Completed then PayStatus.completed
  else if state = PaymeTransactionState.Created then PayStatus.pending
  else if state = PaymeTransactionState.Cancelled ∨
          state = PaymeTransactionState.CancelledAfterComplete then PayStatus.cancelled
  else PayStatus.failed

/-- The parameter object of the Payme `generatePaymentUrl` (values in
`URLSearchParams` insertion order; amount converted to tiyin; `ac` is the
JSON account object with `extra_params` spread over `order_id`). -/
def urlParams (cfg : PaymeConfig) (order : PaymentOrder) : List (String × String) :=
  [("m", cfg.merchant_id),
   ("a", toString (order.amount.amount * 100)),
   ("ac", String.mk (jsonFlatObj (jsSpread [("order_id", order.id)] order.extra_params))),
   ("l", order.return_url.getD ""),
   ("c", order.description.getD "")]

/-- `generatePaymentUrl` of the Payme adapter: base64 of the serialized
parameters appended to the checkout base URL. -/
def generatePaymentUrl (cfg : PaymeConfig) (order : PaymentOrder) : String :=
  baseUrl cfg ++ "/" ++
    String.mk (base64Encode (utf8Bytes (String.mk (encodeQuery (urlParams cfg order)))))

/-- The payload built by `createPayment` (amount in tiyin). -/
def createTransactionPayload (order : PaymentOrder) (timestamp : Nat) :
    PaymeCreatePayload :=
  { method := "CreateTransaction", amount := order.amount.amount * 100,
    account := jsSpread [("order_id", order.id)] order.extra_params,
    time := timestamp }

/-- `createPayment` of the Payme adapter, as a function of the transport
outcome (the `result` member of the RPC response). -/
def createPayment (cfg : PaymeConfig) (order : PaymentOrder)
    (outcome : Except (Option String) PaymeTransactionResult) : PaymentResult :=
  match outcome with
  | .ok r =>
    { success := true, payment_url := some (generatePaymentUrl cfg order),
      transaction_id := some r.transaction }
  | .error e =>
    { success := false,
      error := some { code := "PAYMENT_CREATE_ERROR", message := jsErrMessage e } }

/-- `verifyPayment` of the Payme adapter (amount converted back from
tiyin). -/
def verifyPayment (outcome : Except (Option String) PaymeTransactionResult) :
    PaymentVerifyResult :=
  match outcome with
  | .ok r =>
    { success := true, transaction_id := some r.transaction,
      status := some (mapPaymeStatus r.state),
      paid_amount := some ((r.amount : ℚ) / 100),
      paid_time :=
        if jsTruthyNat r.perform_time then some (JsDate.ofNum (r.perform_time.getD 0))
        else none }
  | .error e =>
    { success := false, status := some PayStatus.failed,
      error := some { code := if isTimeoutError e then "PAYMENT_TIMEOUT"
                              else "PAYMENT_VERIFY_ERROR",
                      message := jsErrMessage e } }

/-- `cancelPayment` of the Payme adapter. -/
def cancelPayment (outcome : Except (Option String) PaymeCancelResult) : PaymentResult :=
  match outcome with
  | .ok r => { success := true, transaction_id := some r.transaction }
  | .error e =>
    { success := false,
      error := some { code := "PAYMENT_CANCEL_ERROR", message := jsErrMessage e } }

end PaymeProvider

/-! ### Redirect-URL decoders (inverse direction of the round-trip claim) -/

/-- Decode the parameters embedded in a Click redirect URL: everything
after the first `?` parsed as a query string. -/
def clickDecodeUrl (url : String) : Option (List (String × String)) :=
  match breakAtChar '?' url.data with
  | (_, some q) => decodeQuery q
  | (_, none) => none

/-- Decode the parameters embedded in a Payme redirect URL: strip the
checkout base, base64-decode the path segment, and parse the query
string. -/
def paymeDecodeUrl (cfg : PaymeConfig) (url : String) : Option (List (String × String)) :=
  let pfx := (PaymeProvider.baseUrl cfg ++ "/").data
  if pfx.isPrefixOf url.data then
    (base64Decode (url.data.drop pfx.length)).bind fun bs =>
      (utf8Decode bs).bind fun qsChars => decodeQuery qsChars
  else none

/-- Recover the `ac.order_id` field of a Payme redirect URL: decode the
parameters, JSON-parse the `ac` value, and look up `order_id`. -/
def paymeDecodeOrderId (cfg : PaymeConfig) (url : String) : Option String :=
  (paymeDecodeUrl cfg url).bind fun qs =>
    (qs.lookup "ac").bind fun acs =>
      (parseJsonFlatObj acs.data).bind fun ac => ac.lookup "order_id"

/-! ### Concrete example inputs for Payme webhook claims -/

def exPaymeCfg : PaymeConfig :=
  { merchant_id := "m1", login := "Paycom", password := "pw", test_mode := true }

def exAuthHeaders : List (String × String) :=
  [("Authorization", "Basic " ++ PaymeProvider.authorization exPaymeCfg)]

def exCreateReq : PaymeWebhookRequest :=
  { method := "CreateTransaction",
    params := { id := some "t1", time := some 1700000000, amount := some 5000000 },
    id := "1", headers := some exAuthHeaders }

def exPerformReq : PaymeWebhookRequest :=
  { method := "PerformTransaction", params := { id := some "t1" },
    id := "2", headers := some exAuthHeaders }

def exCancelReq : PaymeWebhookRequest :=
  { method := "CancelTransaction", params := { id := some "t1", reason := some 5 },
    id := "3", headers := some exAuthHeaders }

def exBadAuthReq : PaymeWebhookRequest :=
  { method := "CreateTransaction", params := { id := some "t1" },
    id := "9", headers := none }

def exOrder : PaymentOrder :=
  { id := "order_123", amount := { amount := 100000, currency := some "UZS" },
    description := some "Payment for Order 123",
    return_url := some "https://shop.example/ok",
    extra_params := [("user_id", "user_123")] }

def exClickCfg : PaymentConfig :=
  { merchant_id := "cm", service_id := "sv", secret_key := "sk", test_mode := true }

/-- A concrete stand-in for the abstract digest parameter, used only to
instantiate witnesses. -/
def exHash : String → String := fun _ => "h0"

def exClickPrepareReq : ClickWebhookRequest :=
  { click_trans_id := "10", service_id := "sv", click_paydoc_id := "77",
    merchant_trans_id := "order_123", amount := 100000, action := 0,
    error := 0, error_note := "", sign_time := "20260101", sign_string := "h0" }

def exClickBadSigReq : ClickWebhookRequest :=
  { click_trans_id := "10", service_id := "sv", click_paydoc_id := "77",
    merchant_trans_id := "order_123", amount := 100000, action := 1,
    error := 0, error_note := "", sign_time := "20260101", sign_string := "bad" }

/-- An order whose `extra_params` contain the reserved key `amount`, which
the object spread in `generatePaymentUrl` lets override the fixed
parameter. -/
def exCollideOrder : PaymentOrder :=
  { id := "order_123", amount := { amount := 7 }, extra_params := [("amount", "5")] }

/-! ### C1 -/

/-- C1 counterexample: running the authorized sequence
CreateTransaction → PerformTransaction → CancelTransaction through
`handleWebhook` ends with state `Cancelled` (-1), not
`CancelledAfterComplete` (-2) as the claim asserts: `handleCancelTransaction`
returns `Cancelled` unconditionally. -/
theorem payme_cancel_after_perform_is_plain_cancelled :
    ((PaymeProvider.handleWebhook exPaymeCfg 10 exCreateReq).result.bind (fun r => r.state) =
      some PaymeTransactionState.Created)
  ∧ ((PaymeProvider.handleWebhook exPaymeCfg 20 exPerformReq).result.bind (fun r => r.state) =
      some PaymeTransactionState.Completed)
  ∧ ((PaymeProvider.handleWebhook exPaymeCfg 30 exCancelReq).result.bind (fun r => r.state) =
      some PaymeTransactionState.Cancelled)
  ∧ ((PaymeProvider.handleWebhook exPaymeCfg 30 exCancelReq).result.bind (fun r => r.state) ≠
      some PaymeTransactionState.CancelledAfterComplete) := by
  decide

/-- C1 (amended): for every authorized webhook request,
`CreateTransaction` yields state Created (1), `PerformTransaction` yields
Completed (2), and `CancelTransaction` always yields Cancelled (-1) —
regardless of whether the transaction had reached Completed — so the
sequence Create→Perform→Cancel ends in state Cancelled. -/
theorem payme_webhook_state_machine (cfg : PaymeConfig) (now : Nat)
    (req : PaymeWebhookRequest)
    (hauth : PaymeProvider.verifyWebhookAuthorization cfg req = true) :
    (req.method = "CreateTransaction" →
      PaymeProvider.handleWebhook cfg now req =
        { result := some { create_time := some now, transaction := req.params.id,
                           state := some PaymeTransactionState.Created } })
  ∧ (req.method = "PerformTransaction" →
      PaymeProvider.handleWebhook cfg now req =
        { result := some { transaction := req.params.id, perform_time := some now,
                           state := some PaymeTransactionState.Completed } })
  ∧ (req.method = "CancelTransaction" →
      PaymeProvider.handleWebhook cfg now req =
        { result := some { transaction := req.params.id, cancel_time := some (some now),
                           state := some PaymeTransactionState.Cancelled } }) := by
  refine ⟨fun hm => ?_, fun hm => ?_, fun hm => ?_⟩ <;>
    simp [PaymeProvider.handleWebhook, hauth, hm,
      PaymeProvider.handleCreateTransaction, PaymeProvider.handlePerformTransaction,
      PaymeProvider.handleCancelTransaction]

/-- Witness for `payme_webhook_state_machine` at a concrete authorized
cancel request. -/
theorem payme_webhook_state_machine_witness :
    PaymeProvider.verifyWebhookAuthorization exPaymeCfg exCancelReq = true
  ∧ (exCancelReq.method = "CancelTransaction" →
      PaymeProvider.handleWebhook exPaymeCfg 30 exCancelReq =
        { result := some { transaction := exCancelReq.params.id,
                           cancel_time := some (some 30),
                           state := some PaymeTransactionState.Cancelled } }) :=
  ⟨by decide, (payme_webhook_state_machine exPaymeCfg 30 exCancelReq (by decide)).2.2⟩

/-! ### C2 -/

/-- C2: any webhook request whose Authorization header is absent, does not
start with `Basic `, or whose token differs from the stored
base64(login:password) credential, gets the fixed AuthorizationFailure
(-32504) response: an `error` with no `result`, independent of the method
(no dispatch happens). -/
theorem payme_webhook_auth_failure (cfg : PaymeConfig) (now : Nat)
    (req : PaymeWebhookRequest)
    (h : PaymeProvider.authHeaderOf req = none
       ∨ ∃ a, PaymeProvider.authHeaderOf req = some a ∧
           (jsStartsWith a "Basic " = false ∨ a.drop 6 ≠ PaymeProvider.authorization cfg)) :
    PaymeProvider.handleWebhook cfg now req =
      { result := none,
        error := some { code := PaymeErrorCodes.AuthorizationFailure,
                        message := "Invalid authorization" } }
    ∧ PaymeErrorCodes.AuthorizationFailure = -32504 := by
  have hv : PaymeProvider.verifyWebhookAuthorization cfg req = false := by
    unfold PaymeProvider.verifyWebhookAuthorization
    rcases h with h | ⟨a, ha, h2 | h2⟩
    · simp [h]
    · simp [ha, h2]
    · simp [ha, h2, ite_self]
  exact ⟨by simp [PaymeProvider.handleWebhook, hv], rfl⟩

/-- Witness for `payme_webhook_auth_failure`: a request with no headers. -/
theorem payme_webhook_auth_failure_witness :
    (PaymeProvider.authHeaderOf exBadAuthReq = none
       ∨ ∃ a, PaymeProvider.authHeaderOf exBadAuthReq = some a ∧
           (jsStartsWith a "Basic " = false ∨
            a.drop 6 ≠ PaymeProvider.authorization exPaymeCfg))
  ∧ (PaymeProvider.handleWebhook exPaymeCfg 7 exBadAuthReq =
      { result := none,
        error := some { code := PaymeErrorCodes.AuthorizationFailure,
                        message := "Invalid authorization" } }
    ∧ PaymeErrorCodes.AuthorizationFailure = -32504) :=
  ⟨Or.inl rfl, payme_webhook_auth_failure exPaymeCfg 7 exBadAuthReq (Or.inl rfl)⟩

/-! ### C9 -/

/-- C9: every `handleWebhook` response — through any of the six method
handlers, the unknown-method branch, or the authorization-failure branch —
has exactly one of `result`/`error` populated. -/
theorem payme_webhook_envelope_exclusive (cfg : PaymeConfig) (now : Nat)
    (req : PaymeWebhookRequest) :
    ((PaymeProvider.handleWebhook cfg now req).result.isSome ↔
      ¬ (PaymeProvider.handleWebhook cfg now req).error.isSome) := by
  unfold PaymeProvider.handleWebhook
  repeat' split
  all_goals
    simp [PaymeProvider.handleCheckPerformTransaction,
      PaymeProvider.handleCreateTransaction, PaymeProvider.handlePerformTransaction,
      PaymeProvider.handleCancelTransaction, PaymeProvider.handleCheckTransaction,
      PaymeProvider.handleGetStatement]

/-! ### C3 -/

/-- C3: the expected Click webhook signature is the digest of the
delimiter-free concatenation of `click_trans_id`, `service_id`,
`click_paydoc_id`, `merchant_trans_id`, `amount`, `action`, `sign_time`
followed by the secret key; whenever this digest differs from the request's
`sign_string`, `handleWebhook` returns the fixed SignatureFailure (-1)
response and does not dispatch on `action`. -/
theorem click_webhook_signature_check (h : String → String) (cfg : PaymentConfig)
    (now : Nat) (req : ClickWebhookRequest)
    (hne : h (req.click_trans_id ++ req.service_id ++ req.click_paydoc_id ++
      req.merchant_trans_id ++ toString req.amount ++ toString req.action ++
      req.sign_time ++ cfg.secret_key) ≠ req.sign_string) :
    ClickProvider.verifyWebhookSignature h cfg req = false
  ∧ ClickProvider.handleWebhook h cfg now req =
      { click_trans_id := jsUnaryPlus req.click_trans_id,
        merchant_trans_id := req.merchant_trans_id,
        error := ClickErrorCodes.SignatureFailure, error_note := "Invalid signature" }
  ∧ ClickErrorCodes.SignatureFailure = -1 := by
  have hj : String.join [req.click_trans_id, req.service_id, req.click_paydoc_id,
      req.merchant_trans_id, toString req.amount, toString req.action, req.sign_time] =
      req.click_trans_id ++ req.service_id ++ req.click_paydoc_id ++
      req.merchant_trans_id ++ toString req.amount ++ toString req.action ++
      req.sign_time := by
    simp [String.join]
  have hv : ClickProvider.verifyWebhookSignature h cfg req = false := by
    unfold ClickProvider.verifyWebhookSignature ClickProvider.generateSignature
    rw [hj]
    exact beq_eq_false_iff_ne.mpr hne
  exact ⟨hv, by simp [ClickProvider.handleWebhook, hv], rfl⟩

/-- Witness for `click_webhook_signature_check` at a concrete mismatching
request. -/
theorem click_webhook_signature_check_witness :
    exHash (exClickBadSigReq.click_trans_id ++ exClickBadSigReq.service_id ++
      exClickBadSigReq.click_paydoc_id ++ exClickBadSigReq.merchant_trans_id ++
      toString exClickBadSigReq.amount ++ toString exClickBadSigReq.action ++
      exClickBadSigReq.sign_time ++ exClickCfg.secret_key) ≠ exClickBadSigReq.sign_string
  ∧ (ClickProvider.verifyWebhookSignature exHash exClickCfg exClickBadSigReq = false
    ∧ ClickProvider.handleWebhook exHash exClickCfg 3 exClickBadSigReq =
        { click_trans_id := jsUnaryPlus exClickBadSigReq.click_trans_id,
          merchant_trans_id := exClickBadSigReq.merchant_trans_id,
          error := ClickErrorCodes.SignatureFailure, error_note := "Invalid signature" }
    ∧ ClickErrorCodes.SignatureFailure = -1) :=
  ⟨by decide, click_webhook_signature_check exHash exClickCfg 3 exClickBadSigReq (by decide)⟩

/-! ### C5 -/

/-- C5: for every signature-valid Click webhook request, action 0 returns a
success response (error 0) carrying `merchant_prepare_id`; action 1 with a
negative inbound `error` passes that error and `error_note` through with no
confirm id; action 1 with a non-negative `error` returns success (error 0)
carrying `merchant_confirm_id`; any other action returns BadRequest (-8). -/
theorem click_webhook_dispatch (h : String → String) (cfg : PaymentConfig)
    (now : Nat) (req : ClickWebhookRequest)
    (hsig : ClickProvider.verifyWebhookSignature h cfg req = true) :
    (req.action = 0 → ClickProvider.handleWebhook h cfg now req =
      { click_trans_id := jsUnaryPlus req.click_trans_id,
        merchant_trans_id := req.merchant_trans_id,
        merchant_prepare_id := some now,
        error := ClickErrorCodes.Success, error_note := "Success" } ∧
      ClickErrorCodes.Success = 0)
  ∧ (req.action = 1 → req.error < 0 → ClickProvider.handleWebhook h cfg now req =
      { click_trans_id := jsUnaryPlus req.click_trans_id,
        merchant_trans_id := req.merchant_trans_id,
        error := req.error, error_note := req.error_note })
  ∧ (req.action = 1 → 0 ≤ req.error → ClickProvider.handleWebhook h cfg now req =
      { click_trans_id := jsUnaryPlus req.click_trans_id,
        merchant_trans_id := req.merchant_trans_id,
        merchant_confirm_id := some now,
        error := ClickErrorCodes.Success, error_note := "Success" })
  ∧ (req.action ≠ 0 → req.action ≠ 1 → ClickProvider.handleWebhook h cfg now req =
      { click_trans_id := jsUnaryPlus req.click_trans_id,
        merchant_trans_id := req.merchant_trans_id,
        error := ClickErrorCodes.BadRequest, error_note := "Invalid action" } ∧
      ClickErrorCodes.BadRequest = -8) := by
  refine ⟨fun h0 => ⟨?_, rfl⟩, fun h1 hneg => ?_, fun h1 hpos => ?_,
    fun hn0 hn1 => ⟨?_, rfl⟩⟩
  · simp [ClickProvider.handleWebhook, hsig, h0, ClickProvider.handlePreparePay]
  · simp [ClickProvider.handleWebhook, hsig, h1, ClickProvider.handleCompletePay, hneg]
  · have hnneg : ¬ req.error < 0 := not_lt.mpr hpos
    simp [ClickProvider.handleWebhook, hsig, h1, ClickProvider.handleCompletePay, hnneg]
  · simp [ClickProvider.handleWebhook, hsig, hn0, hn1]

/-- Witness for `click_webhook_dispatch` at a concrete signature-valid
prepare request. -/
theorem click_webhook_dispatch_witness :
    ClickProvider.verifyWebhookSignature exHash exClickCfg exClickPrepareReq = true
  ∧ (exClickPrepareReq.action = 0 →
      ClickProvider.handleWebhook exHash exClickCfg 99 exClickPrepareReq =
        { click_trans_id := jsUnaryPlus exClickPrepareReq.click_trans_id,
          merchant_trans_id := exClickPrepareReq.merchant_trans_id,
          merchant_prepare_id := some 99,
          error := ClickErrorCodes.Success, error_note := "Success" } ∧
      ClickErrorCodes.Success = 0) :=
  ⟨by decide, (click_webhook_dispatch exHash exClickCfg 99 exClickPrepareReq (by decide)).1⟩

/-! ### C8 -/

/-- C8: the status-mapping functions are total deterministic functions on
the integers realizing the documented tables: Click 1↦completed,
0↦pending, -1↦cancelled, else failed; Payme 2↦completed, 1↦pending,
-1,-2↦cancelled, else failed; mapping the same code twice gives the same
status. -/
theorem status_mapping_tables (n : Int) :
    (ClickProvider.mapClickStatus 1 = PayStatus.completed
      ∧ ClickProvider.mapClickStatus 0 = PayStatus.pending
      ∧ ClickProvider.mapClickStatus (-1) = PayStatus.cancelled
      ∧ PaymeProvider.mapPaymeStatus 2 = PayStatus.completed
      ∧ PaymeProvider.mapPaymeStatus 1 = PayStatus.pending
      ∧ PaymeProvider.mapPaymeStatus (-1) = PayStatus.cancelled
      ∧ PaymeProvider.mapPaymeStatus (-2) = PayStatus.cancelled)
  ∧ (n ≠ 1 → n ≠ 0 → n ≠ -1 → ClickProvider.mapClickStatus n = PayStatus.failed)
  ∧ (n ≠ 2 → n ≠ 1 → n ≠ -1 → n ≠ -2 → PaymeProvider.mapPaymeStatus n = PayStatus.failed)
  ∧ ClickProvider.mapClickStatus n = ClickProvider.mapClickStatus n
  ∧ PaymeProvider.mapPaymeStatus n = PaymeProvider.mapPaymeStatus n := by
  refine ⟨by decide, fun h1 h2 h3 => ?_, fun h1 h2 h3 h4 => ?_, rfl, rfl⟩
  · simp [ClickProvider.mapClickStatus, h1, h2, h3]
  · simp [PaymeProvider.mapPaymeStatus, PaymeTransactionState.Completed,
      PaymeTransactionState.Created, PaymeTransactionState.Cancelled,
      PaymeTransactionState.CancelledAfterComplete, h1, h2, h3, h4]

/-- Witness for `status_mapping_tables` at raw code 7 (falls in the default
branch of both tables). -/
theorem status_mapping_tables_witness :
    ((7 : Int) ≠ 1 ∧ (7 : Int) ≠ 0 ∧ (7 : Int) ≠ -1 ∧ (7 : Int) ≠ 2 ∧ (7 : Int) ≠ -2)
  ∧ ClickProvider.mapClickStatus 7 = PayStatus.failed
  ∧ PaymeProvider.mapPaymeStatus 7 = PayStatus.failed :=
  ⟨by decide,
   (status_mapping_tables 7).2.1 (by decide) (by decide) (by decide),
   (status_mapping_tables 7).2.2.1 (by decide) (by decide) (by decide) (by decide)⟩

/-! ### C4 -/

/-- C4 counterexample: a timeout thrown inside the Payme `createPayment`
transport call is reported with the operation code `PAYMENT_CREATE_ERROR`,
not `PAYMENT_TIMEOUT` as the claim requires — only `verifyPayment` inspects
the message for timeouts. -/
theorem payme_create_timeout_not_mapped :
    isTimeoutError (some "timeout of 30000ms exceeded") = true
  ∧ PaymeProvider.createPayment exPaymeCfg exOrder
      (Except.error (some "timeout of 30000ms exceeded")) =
      { success := false,
        error := some { code := "PAYMENT_CREATE_ERROR",
                        message := "timeout of 30000ms exceeded" } }
  ∧ (PaymeProvider.createPayment exPaymeCfg exOrder
      (Except.error (some "timeout of 30000ms exceeded"))).error.map (fun e => e.code) ≠
      some "PAYMENT_TIMEOUT" := by
  decide

/-- C4 (amended): every transport failure in an outbound operation is
caught and normalized to `success:false` with an `error.code,message` pair;
`verifyPayment` (both adapters) maps timeouts to `PAYMENT_TIMEOUT` and
other failures to `PAYMENT_VERIFY_ERROR`, while `createPayment` and
`cancelPayment` always use `PAYMENT_CREATE_ERROR` / `PAYMENT_CANCEL_ERROR`
even for timeouts. -/
theorem outbound_error_normalization (e : Option String) (cfg : PaymeConfig)
    (order : PaymentOrder) :
    PaymeProvider.createPayment cfg order (Except.error e) =
      { success := false,
        error := some { code := "PAYMENT_CREATE_ERROR", message := jsErrMessage e } }
  ∧ PaymeProvider.verifyPayment (Except.error e) =
      { success := false, status := some PayStatus.failed,
        error := some { code := if isTimeoutError e then "PAYMENT_TIMEOUT"
                                else "PAYMENT_VERIFY_ERROR",
                        message := jsErrMessage e } }
  ∧ PaymeProvider.cancelPayment (Except.error e) =
      { success := false,
        error := some { code := "PAYMENT_CANCEL_ERROR", message := jsErrMessage e } }
  ∧ ClickProvider.verifyPayment (Except.error e) =
      { success := false, status := some PayStatus.failed,
        error := some { code := if isTimeoutError e then "PAYMENT_TIMEOUT"
                                else "PAYMENT_VERIFY_ERROR",
                        message := jsErrMessage e } }
  ∧ ClickProvider.cancelPayment (Except.error e) =
      { success := false,
        error := some { code := "PAYMENT_CANCEL_ERROR", message := jsErrMessage e } } :=
  ⟨rfl, rfl, rfl, rfl, rfl⟩

/-! ### C7 -/

/-- C7: the Payme adapter multiplies order amounts by 100 (tiyin) in the
`CreateTransaction` payload and in the redirect-URL `a` parameter, and
divides the gateway-reported amount by 100 in successful `verifyPayment`
results. -/
theorem payme_minor_unit_conversion (order : PaymentOrder) (t : Nat)
    (cfg : PaymeConfig) (r : PaymeTransactionResult) :
    (PaymeProvider.createTransactionPayload order t).amount = order.amount.amount * 100
  ∧ (PaymeProvider.urlParams cfg order).lookup "a" =
      some (toString (order.amount.amount * 100))
  ∧ (PaymeProvider.verifyPayment (Except.ok r)).paid_amount =
      some ((r.amount : ℚ) / 100) := by
  refine ⟨rfl, ?_, rfl⟩
  simp [PaymeProvider.urlParams, List.lookup]

/-! ### C10 -/

/-- C10: whenever the transport call returns a response, the Payme
`verifyPayment` reports `success:true` with no `error` field, whatever the
transaction state; only `status` reflects the state. In particular a
cancelled (state -1) transaction still verifies with `success:true`. -/
theorem payme_verify_success_unconditional (r : PaymeTransactionResult) :
    (PaymeProvider.verifyPayment (Except.ok r)).success = true
  ∧ (PaymeProvider.verifyPayment (Except.ok r)).error = none
  ∧ (PaymeProvider.verifyPayment (Except.ok r)).status =
      some (PaymeProvider.mapPaymeStatus r.state)
  ∧ (PaymeProvider.verifyPayment (Except.ok r)).transaction_id = some r.transaction
  ∧ (PaymeProvider.verifyPayment
      (Except.ok { transaction := "tx", create_time := 0, state := -1,
                   amount := 100 })).success = true
  ∧ PaymeProvider.mapPaymeStatus (-1) = PayStatus.cancelled :=
  ⟨rfl, rfl, rfl, rfl, rfl, by decide⟩

/-! ### Round-trip lemmas for the encoding layers (used by C6) -/

theorem char_toNat_lt (c : Char) : c.toNat < 1114112 := by
  rcases c.valid with h | ⟨h1, h2⟩
  · exact Nat.lt_trans h (by norm_num)
  · exact h2

theorem char_toNat_ofNat (n : Nat) (h : n < 55296) : (Char.ofNat n).toNat = n := by
  have hv : n.isValidChar := Or.inl h
  simp [Char.ofNat, hv, Char.ofNatAux, Char.toNat, UInt32.toNat, BitVec.toNat_ofNatLt]

theorem utf8EncodeChar_lt (c : Char) : ∀ b ∈ utf8EncodeChar c, b < 256 := by
  have hc := char_toNat_lt c
  intro b hb
  unfold utf8EncodeChar at hb
  by_cases h1 : c.toNat < 128
  · simp [h1] at hb; omega
  · by_cases h2 : c.toNat < 2048
    · simp [h1, h2] at hb; rcases hb with hb | hb <;> omega
    · by_cases h3 : c.toNat < 65536
      · simp [h1, h2, h3] at hb; rcases hb with hb | hb | hb <;> omega
      · simp [h1, h2, h3] at hb; rcases hb with hb | hb | hb | hb <;> omega

theorem utf8Decode_encodeChar (c : Char) (bs : List Nat) :
    utf8Decode (utf8EncodeChar c ++ bs) = (utf8Decode bs).map (c :: ·) := by
  have hc := char_toNat_lt c
  unfold utf8EncodeChar
  by_cases h1 : c.toNat < 0x80
  · rw [if_pos h1]
    show utf8Decode (c.toNat :: bs) = _
    conv_lhs => rw [utf8Decode.eq_def]
    dsimp only
    rw [if_pos h1, Char.ofNat_toNat]
  · by_cases h2 : c.toNat < 0x800
    · have e1 : ¬ (0xC0 + c.toNat / 64 < 0x80) := by omega
      have e2 : ¬ (0xC0 + c.toNat / 64 < 0xC0) := by omega
      have e3 : 0xC0 + c.toNat / 64 < 0xE0 := by omega
      rw [if_neg h1, if_pos h2]
      show utf8Decode ((0xC0 + c.toNat / 64) :: (0x80 + c.toNat % 64) :: bs) = _
      conv_lhs => rw [utf8Decode.eq_def]
      dsimp only
      rw [if_neg e1, if_neg e2, if_pos e3]
      have l1 : ¬ (((0x80 + c.toNat % 64) :: bs).length < 1) := by simp
      rw [if_neg l1]
      simp only [List.drop_succ_cons, List.drop_zero, List.headD_cons]
      have e4 : (0xC0 + c.toNat / 64 - 0xC0) * 64 + (0x80 + c.toNat % 64 - 0x80) =
          c.toNat := by omega
      rw [e4, Char.ofNat_toNat]
    · by_cases h3 : c.toNat < 0x10000
      · have e1 : ¬ (0xE0 + c.toNat / 4096 < 0x80) := by omega
        have e2 : ¬ (0xE0 + c.toNat / 4096 < 0xC0) := by omega
        have e3 : ¬ (0xE0 + c.toNat / 4096 < 0xE0) := by omega
        have e4 : 0xE0 + c.toNat / 4096 < 0xF0 := by omega
        rw [if_neg h1, if_neg h2, if_pos h3]
        show utf8Decode ((0xE0 + c.toNat / 4096) :: (0x80 + c.toNat / 64 % 64) ::
          (0x80 + c.toNat % 64) :: bs) = _
        conv_lhs => rw [utf8Decode.eq_def]
        dsimp only
        rw [if_neg e1, if_neg e2, if_neg e3, if_pos e4]
        have l1 : ¬ (((0x80 + c.toNat / 64 % 64) :: (0x80 + c.toNat % 64) :: bs).length < 2) := by
          simp
        rw [if_neg l1]
        simp only [List.drop_succ_cons, List.drop_zero, List.headD_cons]
        have e5 : (0xE0 + c.toNat / 4096 - 0xE0) * 4096 +
            (0x80 + c.toNat / 64 % 64 - 0x80) * 64 + (0x80 + c.toNat % 64 - 0x80) =
            c.toNat := by omega
        rw [e5, Char.ofNat_toNat]
      · have e1 : ¬ (0xF0 + c.toNat / 0x40000 < 0x80) := by omega
        have e2 : ¬ (0xF0 + c.toNat / 0x40000 < 0xC0) := by omega
        have e3 : ¬ (0xF0 + c.toNat / 0x40000 < 0xE0) := by omega
        have e4 : ¬ (0xF0 + c.toNat / 0x40000 < 0xF0) := by omega
        rw [if_neg h1, if_neg h2, if_neg h3]
        show utf8Decode ((0xF0 + c.toNat / 0x40000) :: (0x80 + c.toNat / 4096 % 64) ::
          (0x80 + c.toNat / 64 % 64) :: (0x80 + c.toNat % 64) :: bs) = _
        conv_lhs => rw [utf8Decode.eq_def]
        dsimp only
        rw [if_neg e1, if_neg e2, if_neg e3, if_neg e4]
        have l1 : ¬ (((0x80 + c.toNat / 4096 % 64) :: (0x80 + c.toNat / 64 % 64) ::
            (0x80 + c.toNat % 64) :: bs).length < 3) := by simp
        rw [if_neg l1]
        simp only [List.drop_succ_cons, List.drop_zero, List.headD_cons]
        have e5 : (0xF0 + c.toNat / 0x40000 - 0xF0) * 0x40000 +
            (0x80 + c.toNat / 4096 % 64 - 0x80) * 4096 +
            (0x80 + c.toNat / 64 % 64 - 0x80) * 64 + (0x80 + c.toNat % 64 - 0x80) =
            c.toNat := by omega
        rw [e5, Char.ofNat_toNat]

theorem utf8Decode_encodeList (cs : List Char) :
    utf8Decode ((cs.map utf8EncodeChar).flatten) = some cs := by
  induction cs with
  | nil => simp [utf8Decode]
  | cons c t ih =>
    simp only [List.map_cons, List.flatten_cons]
    rw [utf8Decode_encodeChar, ih]
    rfl

theorem utf8Decode_utf8Bytes (s : String) : utf8Decode (utf8Bytes s) = some s.data :=
  utf8Decode_encodeList s.data

theorem utf8Bytes_lt (s : String) : ∀ b ∈ utf8Bytes s, b < 256 := by
  intro b hb
  simp only [utf8Bytes, List.mem_flatten, List.mem_map] at hb
  obtain ⟨l, ⟨c, _, rfl⟩, hbl⟩ := hb
  exact utf8EncodeChar_lt c b hbl

theorem string_mk_data (s : String) : String.mk s.data = s := rfl

theorem string_data_append (a b : String) : (a ++ b).data = a.data ++ b.data := rfl

theorem formSafeByte_facts (b : Nat) (h : formSafeByte b = true) :
    b < 55296 ∧ b ≠ 37 ∧ b ≠ 43 ∧ b ≠ 38 ∧ b ≠ 61 ∧ b ≠ 63 := by
  unfold formSafeByte at h
  simp at h
  omega

theorem hexVal_hexDigitUpper : ∀ n, n < 16 → hexVal (hexDigitUpper n) = some n := by decide

theorem hexVal_hexDigitLower : ∀ n, n < 16 → hexVal (hexDigitLower n) = some n := by decide

theorem charOfNat_ne_of_toNat_ne (b : Nat) (m : Char) (hb : b < 55296)
    (hne : b ≠ m.toNat) : Char.ofNat b ≠ m := by
  intro heq
  apply hne
  rw [← char_toNat_ofNat b hb, heq]

theorem formDecode_encodeByte (b : Nat) (hb : b < 256) (cs : List Char) :
    formDecode (formEncodeByte b ++ cs) = (formDecode cs).map (fun t => b :: t) := by
  unfold formEncodeByte
  by_cases hs : formSafeByte b
  · obtain ⟨hlt, h37, h43, _, _, _⟩ := formSafeByte_facts b hs
    have ht : (Char.ofNat b).toNat = b := char_toNat_ofNat b hlt
    have hp : Char.ofNat b ≠ '%' := charOfNat_ne_of_toNat_ne b '%' hlt (by simpa using h37)
    have hq : Char.ofNat b ≠ '+' := charOfNat_ne_of_toNat_ne b '+' hlt (by simpa using h43)
    rw [if_pos hs]
    show formDecode (Char.ofNat b :: cs) = _
    rw [formDecode, if_neg hp, if_neg hq, ht]
  · by_cases h32 : b == 32
    · rw [if_neg hs, if_pos h32]
      show formDecode ('+' :: cs) = _
      rw [formDecode, if_neg (by decide : ¬ ('+' = '%')), if_pos rfl]
      rw [show b = 32 from by simpa using h32]
    · rw [if_neg hs, if_neg h32]
      show formDecode ('%' :: hexDigitUpper (b / 16) :: hexDigitUpper (b % 16) :: cs) = _
      rw [formDecode, if_pos rfl]
      have l1 : ¬ ((hexDigitUpper (b / 16) :: hexDigitUpper (b % 16) :: cs).length < 2) := by
        simp
      rw [if_neg l1]
      simp only [List.drop_succ_cons, List.drop_zero, List.headD_cons]
      rw [hexVal_hexDigitUpper (b / 16) (by omega), hexVal_hexDigitUpper (b % 16) (by omega)]
      simp only [Option.bind_eq_bind, Option.some_bind]
      have e : 16 * (b / 16) + b % 16 = b := by omega
      rw [e]

theorem formDecode_encodeList (bs : List Nat) (h : ∀ b ∈ bs, b < 256) :
    formDecode ((bs.map formEncodeByte).flatten) = some bs := by
  induction bs with
  | nil => simp [formDecode]
  | cons b t ih =>
    simp only [List.map_cons, List.flatten_cons]
    rw [formDecode_encodeByte b (h b (List.mem_cons_self b t)) _,
      ih (fun x hx => h x (List.mem_cons_of_mem b hx))]
    rfl

theorem decodeComponent_formEncode (s : String) : decodeComponent (formEncode s) = some s := by
  unfold decodeComponent formEncode
  rw [formDecode_encodeList _ (utf8Bytes_lt s)]
  simp [utf8Decode_utf8Bytes, string_mk_data]

theorem hexDigitUpper_ne : ∀ n, n < 16 →
    hexDigitUpper n ≠ '&' ∧ hexDigitUpper n ≠ '=' ∧ hexDigitUpper n ≠ '?' := by decide

theorem formEncodeByte_mem (b : Nat) (hb : b < 256) (c : Char)
    (hc : c ∈ formEncodeByte b) : c ≠ '&' ∧ c ≠ '=' ∧ c ≠ '?' := by
  unfold formEncodeByte at hc
  by_cases hs : formSafeByte b
  · obtain ⟨hlt, _, _, h38, h61, h63⟩ := formSafeByte_facts b hs
    rw [if_pos hs] at hc
    simp at hc
    subst hc
    exact ⟨charOfNat_ne_of_toNat_ne b '&' hlt (by simpa using h38),
      charOfNat_ne_of_toNat_ne b '=' hlt (by simpa using h61),
      charOfNat_ne_of_toNat_ne b '?' hlt (by simpa using h63)⟩
  · by_cases h32 : b == 32
    · rw [if_neg hs, if_pos h32] at hc
      simp at hc
      subst hc
      refine ⟨by decide, by decide, by decide⟩
    · rw [if_neg hs, if_neg h32] at hc
      simp at hc
      rcases hc with hc | hc | hc
      · subst hc; refine ⟨by decide, by decide, by decide⟩
      · subst hc; exact hexDigitUpper_ne (b / 16) (by omega)
      · subst hc; exact hexDigitUpper_ne (b % 16) (by omega)

theorem formEncode_mem (s : String) (c : Char) (hc : c ∈ formEncode s) :
    c ≠ '&' ∧ c ≠ '=' ∧ c ≠ '?' := by
  simp only [formEncode, List.mem_flatten, List.mem_map] at hc
  obtain ⟨l, ⟨b, hb, rfl⟩, hcl⟩ := hc
  exact formEncodeByte_mem b (utf8Bytes_lt s b hb) c hcl

theorem splitOnChar_no_sep (sep : Char) (l : List Char) (h : ∀ c ∈ l, c ≠ sep) :
    splitOnChar sep l = [l] := by
  induction l with
  | nil => rfl
  | cons c t ih =>
    have hc : c ≠ sep := h c (List.mem_cons_self c t)
    have ht := ih (fun x hx => h x (List.mem_cons_of_mem c hx))
    simp [splitOnChar, ht, hc]

theorem splitOnChar_sep_append (sep : Char) (x t : List Char)
    (hx : ∀ c ∈ x, c ≠ sep) :
    splitOnChar sep (x ++ sep :: t) = x :: splitOnChar sep t := by
  induction x with
  | nil => simp [splitOnChar]
  | cons c y ih =>
    have hc : c ≠ sep := hx c (List.mem_cons_self c y)
    have ihy := ih (fun d hd => hx d (List.mem_cons_of_mem c hd))
    simp [splitOnChar, ihy, hc]

theorem breakAtChar_sep_append (sep : Char) (k t : List Char)
    (hk : ∀ c ∈ k, c ≠ sep) :
    breakAtChar sep (k ++ sep :: t) = (k, some t) := by
  induction k with
  | nil => simp [breakAtChar]
  | cons c y ih =>
    have hc : c ≠ sep := hk c (List.mem_cons_self c y)
    have ihy := ih (fun d hd => hk d (List.mem_cons_of_mem c hd))
    simp [breakAtChar, ihy, hc]

theorem joinSep_split (sep : Char) (pieces : List (List Char)) (hp : pieces ≠ [])
    (hs : ∀ p ∈ pieces, ∀ c ∈ p, c ≠ sep) :
    splitOnChar sep (joinSep [sep] pieces) = pieces := by
  induction pieces with
  | nil => exact absurd rfl hp
  | cons x rest ih =>
    cases rest with
    | nil =>
      rw [joinSep]
      exact splitOnChar_no_sep sep x (hs x (List.mem_cons_self x []))
    | cons y ts =>
      rw [joinSep, List.append_assoc, List.singleton_append,
        splitOnChar_sep_append sep x _ (hs x (List.mem_cons_self x (y :: ts))),
        ih (by simp) (fun p hp' c hc => hs p (List.mem_cons_of_mem x hp') c hc)]

theorem encodeQueryPair_mem (p : String × String) (c : Char)
    (hc : c ∈ encodeQueryPair p) : c ≠ '&' := by
  simp only [encodeQueryPair, List.mem_append, List.mem_cons] at hc
  rcases hc with hc | hc | hc
  · exact (formEncode_mem p.1 c hc).1
  · subst hc; decide
  · exact (formEncode_mem p.2 c hc).1

theorem parseQueryPair_encode (p : String × String) :
    parseQueryPair (encodeQueryPair p) = some p := by
  unfold parseQueryPair encodeQueryPair
  rw [breakAtChar_sep_append '=' _ _ (fun c hc => (formEncode_mem p.1 c hc).2.1)]
  simp [decodeComponent_formEncode]

theorem parsePairs_encode (ps : List (String × String)) :
    parsePairs (ps.map encodeQueryPair) = some ps := by
  induction ps with
  | nil => rfl
  | cons q t ih => simp [parsePairs, parseQueryPair_encode, ih]

theorem decodeQuery_encodeQuery (ps : List (String × String)) (hps : ps ≠ []) :
    decodeQuery (encodeQuery ps) = some ps := by
  unfold decodeQuery encodeQuery
  rw [joinSep_split '&' (ps.map encodeQueryPair) (by simpa using hps)
      (fun p hp c hc => by
        obtain ⟨q, _, rfl⟩ := List.mem_map.mp hp
        exact encodeQueryPair_mem q c hc)]
  exact parsePairs_encode ps

theorem b64Val_b64Char : ∀ n, n < 64 → b64Val (b64Char n) = some n := by decide

theorem b64Char_ne_eq : ∀ n, n < 64 → b64Char n ≠ '=' := by decide

theorem base64_roundtrip : ∀ (bs : List Nat), (∀ b ∈ bs, b < 256) →
    base64Decode (base64Encode bs) = some bs
  | [], _ => rfl
  | [b0], h => by
    have hb0 : b0 < 256 := h b0 (by simp)
    rw [base64Encode, base64Decode,
      b64Val_b64Char (b0 / 4) (by omega), b64Val_b64Char (b0 % 4 * 16) (by omega)]
    simp only [Option.bind_eq_bind, Option.some_bind, if_true, and_self]
    have e : b0 / 4 * 4 + b0 % 4 * 16 / 16 = b0 := by omega
    rw [e]
  | [b0, b1], h => by
    have hb0 : b0 < 256 := h b0 (by simp)
    have hb1 : b1 < 256 := h b1 (by simp)
    rw [base64Encode, base64Decode,
      b64Val_b64Char (b0 / 4) (by omega),
      b64Val_b64Char (b0 % 4 * 16 + b1 / 16) (by omega)]
    simp only [Option.bind_eq_bind, Option.some_bind]
    rw [if_neg (b64Char_ne_eq (b1 % 16 * 4) (by omega)),
      b64Val_b64Char (b1 % 16 * 4) (by omega)]
    simp only [Option.some_bind, if_true]
    have e1 : b0 / 4 * 4 + (b0 % 4 * 16 + b1 / 16) / 16 = b0 := by omega
    have e2 : (b0 % 4 * 16 + b1 / 16) % 16 * 16 + b1 % 16 * 4 / 4 = b1 := by omega
    rw [e1, e2]
  | b0 :: b1 :: b2 :: b3 :: rest, h => by
    have hb0 : b0 < 256 := h b0 (by simp)
    have hb1 : b1 < 256 := h b1 (by simp)
    have hb2 : b2 < 256 := h b2 (by simp)
    have ih := base64_roundtrip (b3 :: rest) (fun x hx => h x
      (List.mem_cons_of_mem _ (List.mem_cons_of_mem _ (List.mem_cons_of_mem _ hx))))
    rw [base64Encode, base64Decode,
      b64Val_b64Char (b0 / 4) (by omega),
      b64Val_b64Char (b0 % 4 * 16 + b1 / 16) (by omega)]
    simp only [Option.bind_eq_bind, Option.some_bind]
    rw [if_neg (b64Char_ne_eq (b1 % 16 * 4 + b2 / 64) (by omega)),
      b64Val_b64Char (b1 % 16 * 4 + b2 / 64) (by omega)]
    simp only [Option.some_bind]
    rw [if_neg (b64Char_ne_eq (b2 % 64) (by omega)),
      b64Val_b64Char (b2 % 64) (by omega)]
    simp only [Option.some_bind]
    rw [ih]
    have e1 : b0 / 4 * 4 + (b0 % 4 * 16 + b1 / 16) / 16 = b0 := by omega
    have e2 : (b0 % 4 * 16 + b1 / 16) % 16 * 16 + (b1 % 16 * 4 + b2 / 64) / 4 = b1 := by
      omega
    have e3 : (b1 % 16 * 4 + b2 / 64) % 4 * 64 + b2 % 64 = b2 := by omega
    rw [e1, e2, e3]
    rfl
  | [b0, b1, b2], h => by
    have hb0 : b0 < 256 := h b0 (by simp)
    have hb1 : b1 < 256 := h b1 (by simp)
    have hb2 : b2 < 256 := h b2 (by simp)
    rw [base64Encode, base64Decode,
      b64Val_b64Char (b0 / 4) (by omega),
      b64Val_b64Char (b0 % 4 * 16 + b1 / 16) (by omega)]
    simp only [Option.bind_eq_bind, Option.some_bind]
    rw [if_neg (b64Char_ne_eq (b1 % 16 * 4 + b2 / 64) (by omega)),
      b64Val_b64Char (b1 % 16 * 4 + b2 / 64) (by omega)]
    simp only [Option.some_bind]
    rw [if_neg (b64Char_ne_eq (b2 % 64) (by omega)),
      b64Val_b64Char (b2 % 64) (by omega)]
    simp only [Option.some_bind]
    rw [show base64Decode (base64Encode []) = some [] from rfl]
    have e1 : b0 / 4 * 4 + (b0 % 4 * 16 + b1 / 16) / 16 = b0 := by omega
    have e2 : (b0 % 4 * 16 + b1 / 16) % 16 * 16 + (b1 % 16 * 4 + b2 / 64) / 4 = b1 := by
      omega
    have e3 : (b1 % 16 * 4 + b2 / 64) % 4 * 64 + b2 % 64 = b2 := by omega
    rw [e1, e2, e3]
    rfl

theorem parseJsonStringBody_escape (cs : List Char) (rest : List Char) :
    parseJsonStringBody ((cs.map jsonEscapeChar).flatten ++ '"' :: rest) =
      some (cs, rest) := by
  induction cs with
  | nil => simp [parseJsonStringBody]
  | cons c t ih =>
    simp only [List.map_cons, List.flatten_cons, List.append_assoc]
    by_cases h1 : c = '"'
    · subst h1; simp +decide [jsonEscapeChar, parseJsonStringBody, ih]
    · by_cases h2 : c = '\\'
      · subst h2; simp +decide [jsonEscapeChar, parseJsonStringBody, ih]
      · by_cases h8 : c = Char.ofNat 8
        · subst h8; simp +decide [jsonEscapeChar, parseJsonStringBody, ih]
        · by_cases h9 : c = Char.ofNat 9
          · subst h9; simp +decide [jsonEscapeChar, parseJsonStringBody, ih]
          · by_cases h10 : c = Char.ofNat 10
            · subst h10; simp +decide [jsonEscapeChar, parseJsonStringBody, ih]
            · by_cases h12 : c = Char.ofNat 12
              · subst h12; simp +decide [jsonEscapeChar, parseJsonStringBody, ih]
              · by_cases h13 : c = Char.ofNat 13
                · subst h13; simp +decide [jsonEscapeChar, parseJsonStringBody, ih]
                · by_cases hlt : c.toNat < 32
                  · have hv0 : hexVal '0' = some 0 := by decide
                    have hva := hexVal_hexDigitLower (c.toNat / 16) (by omega)
                    have hvb := hexVal_hexDigitLower (c.toNat % 16) (by omega)
                    have he : 4096 * 0 + 256 * 0 + 16 * (c.toNat / 16) + c.toNat % 16 =
                        c.toNat := by omega
                    have he2 : 16 * (c.toNat / 16) + c.toNat % 16 = c.toNat := by omega
                    simp +decide [jsonEscapeChar, h1, h2, h8, h9, h10, h12, h13, hlt,
                      parseJsonStringBody, hv0, hva, hvb, ih, he, he2, Char.ofNat_toNat]
                  · simp +decide [jsonEscapeChar, h1, h2, h8, h9, h10, h12, h13, hlt,
                      parseJsonStringBody, ih]

theorem parseJsonString_lit (s : String) (rest : List Char) :
    parseJsonString (jsonStringLit s ++ rest) = some (s, rest) := by
  unfold parseJsonString jsonStringLit
  simp only [List.cons_append, List.append_assoc, List.singleton_append]
  simp +decide [expectChar, parseJsonStringBody_escape, string_mk_data]

theorem parseJsonMembers_join (ps : List (String × String)) :
    ∀ (fuel : Nat) (rest : List Char), ps ≠ [] → ps.length ≤ fuel →
    parseJsonMembers fuel (joinSep [','] (ps.map jsonMember) ++ cbrace :: rest) =
      some (ps, rest) := by
  induction ps with
  | nil => intro _ _ hne _; exact absurd rfl hne
  | cons p t ih =>
    intro fuel rest _ hlen
    cases fuel with
    | zero => simp at hlen
    | succ f =>
      cases t with
      | nil =>
        rw [List.map_cons, List.map_nil,
          show joinSep [','] [jsonMember p] = jsonMember p from rfl, parseJsonMembers,
          show jsonMember p = jsonStringLit p.1 ++ ':' :: jsonStringLit p.2 from rfl]
        simp only [List.append_assoc, List.cons_append]
        rw [parseJsonString_lit]
        simp +decide [expectChar, parseJsonString_lit, cbrace]
      | cons q u =>
        rw [List.map_cons,
          show joinSep [','] (jsonMember p :: List.map jsonMember (q :: u)) =
            jsonMember p ++ [','] ++ joinSep [','] (List.map jsonMember (q :: u)) from rfl,
          parseJsonMembers,
          show jsonMember p = jsonStringLit p.1 ++ ':' :: jsonStringLit p.2 from rfl]
        simp only [List.append_assoc, List.cons_append, List.singleton_append]
        rw [parseJsonString_lit]
        have hrec := ih f rest (by simp) (by simp at hlen ⊢; omega)
        simp +decide [expectChar, parseJsonString_lit]
        rw [← List.map_cons]
        exact hrec

theorem joinSep_members_length (ps : List (String × String)) :
    ps.length ≤ (joinSep [','] (ps.map jsonMember)).length + 1 := by
  induction ps with
  | nil => simp [joinSep]
  | cons p t ih =>
    cases t with
    | nil => simp [joinSep]
    | cons q u =>
      rw [List.map_cons,
        show joinSep [','] (jsonMember p :: List.map jsonMember (q :: u)) =
          jsonMember p ++ [','] ++ joinSep [','] (List.map jsonMember (q :: u)) from rfl]
      simp only [List.length_append, List.length_cons] at ih ⊢
      omega

theorem parseJsonFlatObj_roundtrip (ps : List (String × String)) (hps : ps ≠ []) :
    parseJsonFlatObj (jsonFlatObj ps) = some ps := by
  obtain ⟨p, t, rfl⟩ : ∃ p t, ps = p :: t := by
    cases ps with
    | nil => exact absurd rfl hps
    | cons p t => exact ⟨p, t, rfl⟩
  have hbody : ∃ B, joinSep [','] ((p :: t).map jsonMember) = '"' :: B := by
    cases t with
    | nil => exact ⟨_, rfl⟩
    | cons q u => exact ⟨_, rfl⟩
  obtain ⟨B, hB⟩ := hbody
  have hne : joinSep [','] ((p :: t).map jsonMember) ++ [cbrace] ≠ [cbrace] := by
    rw [hB]
    simp
  have hfuel : (p :: t).length ≤
      (obrace :: (joinSep [','] ((p :: t).map jsonMember) ++ [cbrace])).length := by
    have := joinSep_members_length (p :: t)
    simp only [List.length_cons, List.length_append] at this ⊢
    omega
  unfold parseJsonFlatObj
  rw [show jsonFlatObj (p :: t) =
    obrace :: (joinSep [','] ((p :: t).map jsonMember) ++ [cbrace]) from rfl]
  simp only [expectChar]
  simp only [if_true]
  simp only [Option.bind_eq_bind, Option.some_bind]
  rw [if_neg hne,
    show (joinSep [','] ((p :: t).map jsonMember) ++ [cbrace]) =
      (joinSep [','] ((p :: t).map jsonMember) ++ cbrace :: []) from rfl,
    parseJsonMembers_join (p :: t) _ [] (by simp) hfuel]
  simp

theorem lookup_map_overwrite (l : List (String × String)) (k k' v : String)
    (hk : k' ≠ k) :
    (l.map (fun p => if p.1 == k' then (k', v) else p)).lookup k = l.lookup k := by
  induction l with
  | nil => rfl
  | cons p t ih =>
    obtain ⟨pk, pv⟩ := p
    by_cases hp : pk = k'
    · subst hp
      have hkk : (k == pk) = false := by simp [Ne.symm hk]
      simp only [List.map_cons]
      rw [show (if pk == pk then (pk, v) else (pk, pv)) = (pk, v) from
        if_pos (beq_self_eq_true pk)]
      simp only [beq_iff_eq] at ih
      simp [List.lookup, hkk, ih]
    · have hpb : (pk == k') = false := by simp [hp]
      simp only [List.map_cons]
      rw [show (if pk == k' then (k', v) else (pk, pv)) = (pk, pv) from
        if_neg (by simp [hp])]
      simp only [beq_iff_eq] at ih
      simp [List.lookup, ih]

theorem lookup_append_single (l : List (String × String)) (k k' v : String)
    (hk : k' ≠ k) : (l ++ [(k', v)]).lookup k = l.lookup k := by
  induction l with
  | nil =>
    have hkk : (k == k') = false := by simp [Ne.symm hk]
    simp [List.lookup, hkk]
  | cons p t ih =>
    obtain ⟨pk, pv⟩ := p
    simp [List.lookup, ih]

theorem lookup_jsInsert_ne (l : List (String × String)) (k k' v : String)
    (hk : k' ≠ k) : (jsInsert l k' v).lookup k = l.lookup k := by
  unfold jsInsert
  split
  · exact lookup_map_overwrite l k k' v hk
  · exact lookup_append_single l k k' v hk

theorem lookup_jsSpread (base extra : List (String × String)) (k : String)
    (hex : ∀ p ∈ extra, p.1 ≠ k) :
    (jsSpread base extra).lookup k = base.lookup k := by
  induction extra generalizing base with
  | nil => rfl
  | cons p t ih =>
    rw [show jsSpread base (p :: t) = jsSpread (jsInsert base p.1 p.2) t from rfl,
      ih (jsInsert base p.1 p.2) (fun q hq => hex q (List.mem_cons_of_mem p hq))]
    exact lookup_jsInsert_ne base k p.1 p.2 (hex p (List.mem_cons_self p t))

theorem jsSpread_ne_nil (base extra : List (String × String)) (hb : base ≠ []) :
    jsSpread base extra ≠ [] := by
  induction extra generalizing base with
  | nil => exact hb
  | cons p t ih =>
    rw [show jsSpread base (p :: t) = jsSpread (jsInsert base p.1 p.2) t from rfl]
    apply ih
    unfold jsInsert
    split
    · cases base with
      | nil => exact absurd rfl hb
      | cons a b => simp
    · simp

theorem isPrefixOf_append (l t : List Char) : l.isPrefixOf (l ++ t) = true := by
  induction l with
  | nil => simp [List.isPrefixOf]
  | cons c y ih => simp [List.isPrefixOf, ih]

theorem clickBaseUrl_no_qmark (cfg : PaymentConfig) :
    ∀ c ∈ (ClickProvider.baseUrl cfg).data, c ≠ '?' := by
  unfold ClickProvider.baseUrl
  by_cases h : cfg.test_mode
  · rw [if_pos h]; decide
  · rw [if_neg h]; decide

theorem clickDecodeUrl_roundtrip (cfg : PaymentConfig) (order : PaymentOrder) :
    clickDecodeUrl (ClickProvider.generatePaymentUrl cfg order) =
      some (ClickProvider.urlParams cfg order) := by
  unfold clickDecodeUrl ClickProvider.generatePaymentUrl
  have hdata : (ClickProvider.baseUrl cfg ++ "?" ++
      String.mk (encodeQuery (ClickProvider.urlParams cfg order))).data =
      (ClickProvider.baseUrl cfg).data ++
        '?' :: encodeQuery (ClickProvider.urlParams cfg order) := by
    rw [string_data_append, string_data_append]
    simp
  rw [hdata, breakAtChar_sep_append '?' _ _ (clickBaseUrl_no_qmark cfg)]
  exact decodeQuery_encodeQuery _ (jsSpread_ne_nil _ _ (by simp))

theorem paymeDecodeUrl_roundtrip (cfg : PaymeConfig) (order : PaymentOrder) :
    paymeDecodeUrl cfg (PaymeProvider.generatePaymentUrl cfg order) =
      some (PaymeProvider.urlParams cfg order) := by
  unfold paymeDecodeUrl PaymeProvider.generatePaymentUrl
  rw [string_data_append (PaymeProvider.baseUrl cfg ++ "/")]
  rw [show (String.mk (base64Encode (utf8Bytes (String.mk
      (encodeQuery (PaymeProvider.urlParams cfg order)))))).data =
    base64Encode (utf8Bytes (String.mk
      (encodeQuery (PaymeProvider.urlParams cfg order)))) from rfl]
  rw [if_pos (isPrefixOf_append _ _), List.drop_left,
    base64_roundtrip _ (utf8Bytes_lt _)]
  simp only [Option.bind_eq_bind, Option.some_bind]
  rw [utf8Decode_utf8Bytes]
  simp only [Option.some_bind]
  exact decodeQuery_encodeQuery _ (by simp [PaymeProvider.urlParams])

theorem clickUrlParams_lookup (cfg : PaymentConfig) (order : PaymentOrder)
    (hC : ∀ p ∈ order.extra_params, p.1 ≠ "transaction_param" ∧ p.1 ≠ "amount") :
    (ClickProvider.urlParams cfg order).lookup "transaction_param" = some order.id ∧
    (ClickProvider.urlParams cfg order).lookup "amount" =
      some (toString order.amount.amount) := by
  unfold ClickProvider.urlParams
  constructor
  · rw [lookup_jsSpread _ _ _ (fun p hp => (hC p hp).1)]
    simp [List.lookup]
  · rw [lookup_jsSpread _ _ _ (fun p hp => (hC p hp).2)]
    simp [List.lookup]

theorem paymeUrlParams_lookup (cfg : PaymeConfig) (order : PaymentOrder)
    (hP : ∀ p ∈ order.extra_params, p.1 ≠ "order_id") :
    (PaymeProvider.urlParams cfg order).lookup "a" =
      some (toString (order.amount.amount * 100)) ∧
    (PaymeProvider.urlParams cfg order).lookup "ac" =
      some (String.mk (jsonFlatObj (jsSpread [("order_id", order.id)]
        order.extra_params))) ∧
    (jsSpread [("order_id", order.id)] order.extra_params).lookup "order_id" =
      some order.id := by
  refine ⟨?_, ?_, ?_⟩
  · simp [PaymeProvider.urlParams, List.lookup]
  · simp [PaymeProvider.urlParams, List.lookup]
  · rw [lookup_jsSpread _ _ _ hP]
    simp [List.lookup]

theorem paymeDecodeOrderId_roundtrip (cfg : PaymeConfig) (order : PaymentOrder)
    (hP : ∀ p ∈ order.extra_params, p.1 ≠ "order_id") :
    paymeDecodeOrderId cfg (PaymeProvider.generatePaymentUrl cfg order) =
      some order.id := by
  unfold paymeDecodeOrderId
  rw [paymeDecodeUrl_roundtrip]
  simp only [Option.bind_eq_bind, Option.some_bind]
  rw [(paymeUrlParams_lookup cfg order hP).2.1]
  simp only [Option.some_bind]
  rw [parseJsonFlatObj_roundtrip _ (jsSpread_ne_nil _ _ (by simp))]
  simp only [Option.some_bind]
  exact (paymeUrlParams_lookup cfg order hP).2.2

/-! ### C6 -/

/-- C6 counterexample: for an order whose `extra_params` contain the key
`amount`, the object spread in the Click `generatePaymentUrl` overrides the
fixed `amount` parameter, so decoding the URL yields `amount=5` rather than
the order amount 7 — the round trip of the claim fails for this order. -/
theorem click_url_amount_overridden :
    clickDecodeUrl (ClickProvider.generatePaymentUrl exClickCfg exCollideOrder) =
      some (ClickProvider.urlParams exClickCfg exCollideOrder)
  ∧ (ClickProvider.urlParams exClickCfg exCollideOrder).lookup "amount" = some "5"
  ∧ (ClickProvider.urlParams exClickCfg exCollideOrder).lookup "amount" ≠
      some (toString exCollideOrder.amount.amount) :=
  ⟨clickDecodeUrl_roundtrip exClickCfg exCollideOrder, by decide, by decide⟩

/-- C6 (amended): for every order whose `extra_params` avoid the reserved
keys (`transaction_param`/`amount` for Click, `order_id` for Payme),
decoding the parameters embedded in `generatePaymentUrl(order)` recovers
`order.id` and the order amount exactly: the Click query string maps
`transaction_param` to `order.id` and `amount` to the order amount, and the
base64-decoded Payme payload maps `a` to the amount in tiyin and carries
`order.id` as `ac.order_id`. -/
theorem payment_url_roundtrip (cfgC : PaymentConfig) (cfgP : PaymeConfig)
    (order : PaymentOrder)
    (hC : ∀ p ∈ order.extra_params, p.1 ≠ "transaction_param" ∧ p.1 ≠ "amount")
    (hP : ∀ p ∈ order.extra_params, p.1 ≠ "order_id") :
    clickDecodeUrl (ClickProvider.generatePaymentUrl cfgC order) =
      some (ClickProvider.urlParams cfgC order)
  ∧ (ClickProvider.urlParams cfgC order).lookup "transaction_param" = some order.id
  ∧ (ClickProvider.urlParams cfgC order).lookup "amount" =
      some (toString order.amount.amount)
  ∧ paymeDecodeUrl cfgP (PaymeProvider.generatePaymentUrl cfgP order) =
      some (PaymeProvider.urlParams cfgP order)
  ∧ (PaymeProvider.urlParams cfgP order).lookup "a" =
      some (toString (order.amount.amount * 100))
  ∧ paymeDecodeOrderId cfgP (PaymeProvider.generatePaymentUrl cfgP order) =
      some order.id :=
  ⟨clickDecodeUrl_roundtrip cfgC order,
   (clickUrlParams_lookup cfgC order hC).1,
   (clickUrlParams_lookup cfgC order hC).2,
   paymeDecodeUrl_roundtrip cfgP order,
   (paymeUrlParams_lookup cfgP order hP).1,
   paymeDecodeOrderId_roundtrip cfgP order hP⟩

/-- Witness for `payment_url_roundtrip` at the concrete order
`order_123` with amount 100000 and a non-reserved extra parameter. -/
theorem payment_url_roundtrip_witness :
    ((∀ p ∈ exOrder.extra_params, p.1 ≠ "transaction_param" ∧ p.1 ≠ "amount")
      ∧ (∀ p ∈ exOrder.extra_params, p.1 ≠ "order_id"))
  ∧ ((ClickProvider.urlParams exClickCfg exOrder).lookup "transaction_param" =
      some exOrder.id
    ∧ paymeDecodeOrderId exPaymeCfg
        (PaymeProvider.generatePaymentUrl exPaymeCfg exOrder) = some exOrder.id) :=
  ⟨⟨by decide, by decide⟩,
   (payment_url_roundtrip exClickCfg exPaymeCfg exOrder (by decide) (by decide)).2.1,
   (payment_url_roundtrip exClickCfg exPaymeCfg exOrder (by decide) (by decide)).2.2.2.2.2⟩
